import Mathlib

/-!
Shallow embedding of the kasperl-plots plugin package: the Plot data
model, the CSV plot reader (`kasperl/plots/reader/_csv.py`), the CSV plot
writer (`kasperl/plots/writer/_csv.py`) and the three rendering writers
(`_graphical.py`, `_sixel.py`, `_terminal.py`).

Modelling conventions:
* Python strings are `String`, optional values are `Option`.
* A CSV file on disk is represented by its parsed rows (`List Row`):
  the Python `csv` module (an external library) is the bijection between
  the delimited text and the rows for the plain, quote-free cells that
  occur here, so the repository code only ever sees rows of cells.
* The file system is an association list from paths to file contents;
  `open(path, "w")` truncates, modelled by writing an empty file.
* Fallible Python code (raised exceptions) is `Except String`, carrying
  the exception message.
* Host-framework collaborators (`locate_files`, placeholder expansion,
  `make_list`, loggers) are out of scope per the spec: `locate_files` is
  an oracle argument, placeholder expansion is the identity on paths,
  `make_list` on a list is the identity, and logging is returned as a
  list of warning strings.
-/

/-- One row of a CSV file: the list of its cells. -/
abbrev Row := List String

/-- Data of the `XYPlot` variant of the kasperl `Plot` data model
(external `kasperl.api`, described in the spec): a titled pair of
ordered sequences with optional axis labels and a metadata mapping. -/
structure XYPlotData where
  title : Option String
  x_data : List String
  x_label : Option String
  y_data : List String
  y_label : Option String
  metadata : List (String × String)
deriving DecidableEq

/-- Data of the `SequencePlot` variant of the kasperl `Plot` data model:
a titled single sequence with an optional label and metadata. -/
structure SequencePlotData where
  title : Option String
  data : List String
  label : Option String
  metadata : List (String × String)
deriving DecidableEq

/-- The kasperl `Plot` argument as seen by a writer at runtime: an
`XYPlot`, a `SequencePlot`, or some other object (`other` carries
Python's `str(type(data))` for the error message), since the writers
accept any `Plot` and type-check at runtime. -/
inductive Plot where
  | xy (p : XYPlotData)
  | seq (p : SequencePlotData)
  | other (clsName : String)
deriving DecidableEq

/-- Decimal digit accumulator for `pyDigits`. -/
def pyDigitsAux : List Char → Nat → Option Nat
  | [], acc => some acc
  | c :: cs, acc => if c.isDigit then pyDigitsAux cs (acc * 10 + (c.toNat - 48)) else none

/-- A nonempty all-digit character sequence read as a decimal number. -/
def pyDigits : List Char → Option Nat
  | [] => none
  | cs => pyDigitsAux cs 0

/-- Strip leading and trailing whitespace from a character sequence. -/
def pyTrimList (cs : List Char) : List Char :=
  ((cs.dropWhile Char.isWhitespace).reverse.dropWhile Char.isWhitespace).reverse

/-- Python `int(s)`: optional surrounding whitespace, an optional sign,
then decimal digits; anything else raises `ValueError`. -/
def pythonInt (s : String) : Except String Int :=
  match pyTrimList s.data with
  | '-' :: rest =>
    match pyDigits rest with
    | some n => Except.ok (-(n : Int))
    | none => Except.error ("invalid literal for int() with base 10: " ++ s)
  | '+' :: rest =>
    match pyDigits rest with
    | some n => Except.ok (n : Int)
    | none => Except.error ("invalid literal for int() with base 10: " ++ s)
  | cs =>
    match pyDigits cs with
    | some n => Except.ok (n : Int)
    | none => Except.error ("invalid literal for int() with base 10: " ++ s)

/-- Python list indexing `row[i]`: negative indices count from the end,
out-of-range access raises `IndexError`. -/
def pyGet (row : List String) (i : Int) : Except String String :=
  let n : Int := row.length
  let j : Int := if i < 0 then i + n else i
  if 0 ≤ j ∧ j < n then
    match row[j.toNat]? with
    | some v => Except.ok v
    | none => Except.error "list index out of range"
  else Except.error "list index out of range"

/-- Helper for `basename`: the characters after the last slash. -/
def basenameAux : List Char → List Char → List Char
  | [], acc => acc.reverse
  | c :: cs, acc => if c = '/' then basenameAux cs [] else basenameAux cs (c :: acc)

/-- `os.path.basename`: the component after the last slash. -/
def basename (p : String) : String := String.mk (basenameAux p.data [])

/-- Configuration of `CsvPlotReader` as stored by `__init__`: the title
override, the 1-based x/y column indices (as the CLI strings), the axis
label overrides and the field separator.  Source paths and the resume
marker are resolved by the host framework's `locate_files` and appear as
an oracle argument of `CsvPlotReader.read`. -/
structure CsvReaderCfg where
  title : Option String
  x_data : Option String
  x_label : Option String
  y_data : Option String
  y_label : Option String
  separator : Option String
deriving DecidableEq

/-- The column state computed by `CsvPlotReader.initialize`: the 0-based
`_y_col` and `_x_col` and the defaulted separator. -/
structure CsvReaderCols where
  y_col : Int
  x_col : Option Int
  separator : String
deriving DecidableEq

/-- The mutable per-run state of `CsvPlotReader`: `_inputs` is `None`
after `__init__`/`initialize` and becomes the remaining file list once
`read` has resolved the sources. -/
structure CsvReaderRun where
  _inputs : Option (List String)
deriving DecidableEq

/-- `CsvPlotReader.initialize`: raises unless a Y column is configured,
converts the 1-based column strings with `int(...) - 1`, and defaults the
separator to a comma.  It performs no I/O, which the embedding reflects
by giving it no file-system argument (it also resets `_inputs` to
`None`, i.e. leaves the run state at `⟨none⟩`). -/
def CsvPlotReader.setup (cfg : CsvReaderCfg) : Except String CsvReaderCols :=
  match cfg.y_data with
  | none => Except.error "At least the column for the Y values must be specified!"
  | some ys =>
    match pythonInt ys with
    | Except.error e => Except.error e
    | Except.ok yv =>
      match cfg.x_data with
      | none =>
        Except.ok { y_col := yv - 1, x_col := none, separator := cfg.separator.getD "," }
      | some xs =>
        match pythonInt xs with
        | Except.error e => Except.error e
        | Except.ok xv =>
          Except.ok { y_col := yv - 1, x_col := some (xv - 1), separator := cfg.separator.getD "," }

/-- The loop accumulator of the `for row in reader` loop in
`CsvPlotReader.read`: the `x`, `y`, `x_label`, `y_label` and `first`
locals. -/
structure LoopAcc where
  x : Option (List String)
  y : List String
  x_label : Option String
  y_label : Option String
  first : Bool
deriving DecidableEq

/-- One iteration of the row loop of `CsvPlotReader.read`: on the first
row it records the header cells as labels, and then (the source has no
`continue`, so also on the first row) appends the cells at the
configured columns to the accumulating sequences. -/
def CsvPlotReader.readStep (cols : CsvReaderCols) (row : Row) (acc : LoopAcc) : Except String LoopAcc :=
  let headerRes : Except String LoopAcc :=
    if acc.first then
      match cols.x_col with
      | some c =>
        match pyGet row c with
        | Except.error e => Except.error e
        | Except.ok xl =>
          match pyGet row cols.y_col with
          | Except.error e => Except.error e
          | Except.ok yl => Except.ok { acc with first := false, x_label := some xl, y_label := some yl }
      | none =>
        match pyGet row cols.y_col with
        | Except.error e => Except.error e
        | Except.ok yl => Except.ok { acc with first := false, y_label := some yl }
    else Except.ok acc
  match headerRes with
  | Except.error e => Except.error e
  | Except.ok acc1 =>
    match cols.x_col with
    | some c =>
      match pyGet row c with
      | Except.error e => Except.error e
      | Except.ok xv =>
        match pyGet row cols.y_col with
        | Except.error e => Except.error e
        | Except.ok yv =>
          Except.ok { acc1 with x := some (acc1.x.getD [] ++ [xv]), y := acc1.y ++ [yv] }
    | none =>
      match pyGet row cols.y_col with
      | Except.error e => Except.error e
      | Except.ok yv => Except.ok { acc1 with y := acc1.y ++ [yv] }

/-- The row loop of `CsvPlotReader.read` over all rows of the file. -/
def CsvPlotReader.readRows (cols : CsvReaderCols) : List Row → LoopAcc → Except String LoopAcc
  | [], acc => Except.ok acc
  | row :: rest, acc =>
    match CsvPlotReader.readStep cols row acc with
    | Except.error e => Except.error e
    | Except.ok acc1 => CsvPlotReader.readRows cols rest acc1

/-- The per-file body of `CsvPlotReader.read`: runs the row loop on the
file's rows and emits one `XYPlot` (x column configured) or
`SequencePlot` (otherwise) with the configured or file-name title and
the `source` metadata entry.  Note that the source builds the plot from
the loop locals only: the `x_label`/`y_label` override fields of the
configuration are not consulted. -/
def CsvPlotReader.readOne (cfg : CsvReaderCfg) (cols : CsvReaderCols) (path : String) (rows : List Row) : Except String Plot :=
  let acc0 : LoopAcc :=
    { x := match cols.x_col with | some _ => some [] | none => none
      y := [], x_label := none, y_label := none, first := true }
  match CsvPlotReader.readRows cols rows acc0 with
  | Except.error e => Except.error e
  | Except.ok acc =>
    let title := match cfg.title with | some t => t | none => basename path
    let meta := [("source", path)]
    match cols.x_col with
    | some _ =>
      Except.ok (Plot.xy { title := some title, x_data := acc.x.getD [], x_label := acc.x_label,
                           y_data := acc.y, y_label := acc.y_label, metadata := meta })
    | none =>
      Except.ok (Plot.seq { title := some title, data := acc.y, label := acc.y_label, metadata := meta })

/-- The kind of chart drawn by the rendering writers (`plt.plot` vs
`plt.scatter`). -/
inductive SeriesKind where
  | line
  | scatter
deriving DecidableEq

/-- The data series handed to the plotting backend: `x_data` against
`y_data` for an `XYPlot`, a single sequence for a `SequencePlot`. -/
inductive Series where
  | xySeries (x y : List String)
  | seqSeries (d : List String)
deriving DecidableEq

/-- The rendered figure state of a plotting backend after one
`write_batch` call: the drawn series and kind, the axis labels set with
`xlabel`/`ylabel`, and the figure title. -/
structure Figure where
  kind : SeriesKind
  series : Series
  x_label : Option String
  y_label : Option String
  title : String
deriving DecidableEq

/-- Contents of a file on disk: a CSV file (as its parsed rows, see the
header comment) or a saved figure image. -/
inductive FileData where
  | csv (rows : List Row)
  | image (fig : Figure)
deriving DecidableEq

/-- The file system: an association list from paths to file contents. -/
abbrev FS := List (String × FileData)

/-- Writing a file: replaces the entry at the path or appends one. -/
def fsWrite (fs : FS) (p : String) (d : FileData) : FS :=
  match fs with
  | [] => [(p, d)]
  | (q, e) :: rest => if q = p then (p, d) :: rest else (q, e) :: fsWrite rest p d

/-- The pop-and-process part of `CsvPlotReader.read`: pops the first
remaining input file (`self._inputs.pop(0)`, raising `IndexError` when
the list is exhausted), opens and parses it with the per-file body, and
returns the emitted plot together with the updated run state (the
remaining inputs). -/
def CsvPlotReader.readNext (cfg : CsvReaderCfg) (cols : CsvReaderCols) (inputs : List String) (fs : FS) : Except String (Plot × CsvReaderRun) :=
  match inputs with
  | [] => Except.error "pop from empty list"
  | current :: rest =>
    match List.lookup current fs with
    | some (FileData.csv rows) =>
      match CsvPlotReader.readOne cfg cols current rows with
      | Except.error e => Except.error e
      | Except.ok plot => Except.ok (plot, { _inputs := some rest })
    | _ => Except.error ("No such file or directory: " ++ current)

/-- `CsvPlotReader.read` (one generator step, i.e. one input file): if
`_inputs` is still `None`, resolves the configured sources via the host
framework's `locate_files` — modelled by the oracle `located`, with
`fail_if_empty=True` raising when it is empty — and then pops and
processes the first file. -/
def CsvPlotReader.read (cfg : CsvReaderCfg) (cols : CsvReaderCols) (located : List String) (st : CsvReaderRun) (fs : FS) : Except String (Plot × CsvReaderRun) :=
  match st._inputs with
  | none =>
    if located.isEmpty then Except.error "Failed to locate any files!"
    else CsvPlotReader.readNext cfg cols located fs
  | some l => CsvPlotReader.readNext cfg cols l fs

/-- `CsvPlotReader.has_finished`: returns `len(self._inputs) == 0`;
when `_inputs` is still `None` (no `read` call yet), `len(None)` raises
`TypeError`. -/
def CsvPlotReader.has_finished (st : CsvReaderRun) : Except String Bool :=
  match st._inputs with
  | none => Except.error "object of type NoneType has no len()"
  | some l => Except.ok (decide (l.length = 0))

/-- Configuration of `CsvPlotWriter`: the output path (a required CLI
option) and the field separator (defaulted to a comma by the CLI; unused
in the rows-of-cells model of CSV text, see the header comment). -/
structure CsvWriterCfg where
  output_file : String
  separator : String
deriving DecidableEq

/-- `CsvPlotWriter.write_batch`: on an empty batch warns and returns; on
a longer batch warns and keeps only the first item; then opens the
output path in write mode (truncating it) and writes a header row from
the labels (defaulting to `x`/`y` or `value`) followed by one row per
data element, raising on an unrecognized `Plot` variant after the file
was already opened.  Returns the exception outcome, the file system and
the logged warnings. -/
def CsvPlotWriter.write_batch (cfg : CsvWriterCfg) (data : List Plot) (fs : FS) : Except String Unit × FS × List String :=
  match data with
  | [] => (Except.ok (), fs, ["No data to save!"])
  | d :: rest =>
    let warn : List String :=
      if rest.isEmpty then []
      else ["Can only save the first of " ++ toString (rest.length + 1) ++ " data items!"]
    let path := cfg.output_file
    match d with
    | Plot.xy p =>
      let x_label := p.x_label.getD "x"
      let y_label := p.y_label.getD "y"
      let rows := [x_label, y_label] :: (List.zip p.x_data p.y_data).map (fun q => [q.1, q.2])
      (Except.ok (), fsWrite fs path (FileData.csv rows), warn)
    | Plot.seq p =>
      let label := p.label.getD "value"
      let rows := [label] :: p.data.map (fun v => [v])
      (Except.ok (), fsWrite fs path (FileData.csv rows), warn)
    | Plot.other cls =>
      (Except.error ("Unhandled plot class: " ++ cls), fsWrite fs path (FileData.csv []), warn)

/-- Modelled from the spec: the `PLOT_LINE` constant of
`kasperl.plots.core`, a module of this repository not present in the
sources; the spec's command table and §4.3 give the two recognized
plot-type selector values as `line` and `scatter`. -/
def PLOT_LINE : String := "line"

/-- Modelled from the spec: the `PLOT_SCATTER` constant of
`kasperl.plots.core` (see `PLOT_LINE`). -/
def PLOT_SCATTER : String := "scatter"

/-- Python `"%s" % x` for the optional plot-type string (`None` prints
as `None`). -/
def pyStrOpt : Option String → String
  | none => "None"
  | some s => s

/-- The rendering block shared verbatim by `GraphicalPlot.write_batch`,
`SixelPlot.write_batch` and `TerminalPlot.write_batch`: draws the data
as a line or scatter series depending on the plot-type selector, sets
the axis labels (defaulting to `x`/`y` or `value`) and the title
(defaulting to `Plot`), and raises on an unrecognized selector or an
unrecognized `Plot` variant. -/
def renderFigure (plot_type : Option String) (d : Plot) : Except String Figure :=
  match d with
  | Plot.xy p =>
    if plot_type = some PLOT_LINE then
      Except.ok { kind := SeriesKind.line, series := Series.xySeries p.x_data p.y_data,
                  x_label := some (p.x_label.getD "x"), y_label := some (p.y_label.getD "y"),
                  title := p.title.getD "Plot" }
    else if plot_type = some PLOT_SCATTER then
      Except.ok { kind := SeriesKind.scatter, series := Series.xySeries p.x_data p.y_data,
                  x_label := some (p.x_label.getD "x"), y_label := some (p.y_label.getD "y"),
                  title := p.title.getD "Plot" }
    else Except.error ("Unhandled plot type: " ++ pyStrOpt plot_type)
  | Plot.seq p =>
    if plot_type = some PLOT_LINE then
      Except.ok { kind := SeriesKind.line, series := Series.seqSeries p.data,
                  x_label := none, y_label := some (p.label.getD "value"),
                  title := p.title.getD "Plot" }
    else if plot_type = some PLOT_SCATTER then
      Except.ok { kind := SeriesKind.scatter, series := Series.seqSeries p.data,
                  x_label := none, y_label := some (p.label.getD "value"),
                  title := p.title.getD "Plot" }
    else Except.error ("Unhandled plot type: " ++ pyStrOpt plot_type)
  | Plot.other cls => Except.error ("Unhandled plot class: " ++ cls)

/-- Configuration of `GraphicalPlot`: optional output path, plot-type
selector and the blocking flag. -/
structure GraphicalCfg where
  output_file : Option String
  plot_type : Option String
  block : Bool
deriving DecidableEq

/-- `GraphicalPlot.write_batch`: empty batch warns and returns; longer
batch warns and keeps the first item; renders the figure and, if an
output path is configured, saves it there (`plt.show` on `block` has no
file-system effect). -/
def GraphicalPlot.write_batch (cfg : GraphicalCfg) (data : List Plot) (fs : FS) : Except String Unit × FS × List String :=
  match data with
  | [] => (Except.ok (), fs, ["No data to plot!"])
  | d :: rest =>
    let warn : List String :=
      if rest.isEmpty then []
      else ["Can only plot the first of " ++ toString (rest.length + 1) ++ " data items!"]
    match renderFigure cfg.plot_type d with
    | Except.error e => (Except.error e, fs, warn)
    | Except.ok fig =>
      match cfg.output_file with
      | some p => (Except.ok (), fsWrite fs p (FileData.image fig), warn)
      | none => (Except.ok (), fs, warn)

/-- Configuration of `SixelPlot`: optional output path and plot-type
selector. -/
structure SixelCfg where
  output_file : Option String
  plot_type : Option String
deriving DecidableEq

/-- `SixelPlot.write_batch`: empty batch warns and returns; longer batch
warns and keeps the first item; renders the figure, saves it to the
configured output path if any, and always also saves it to the private
temporary file `tmp` (created by `initialize` from a UUID, passed here
as an argument) whose sixel encoding is then streamed to stdout
(terminal output, outside the file-system model). -/
def SixelPlot.write_batch (cfg : SixelCfg) (tmp : String) (data : List Plot) (fs : FS) : Except String Unit × FS × List String :=
  match data with
  | [] => (Except.ok (), fs, ["No data to plot!"])
  | d :: rest =>
    let warn : List String :=
      if rest.isEmpty then []
      else ["Can only plot the first of " ++ toString (rest.length + 1) ++ " data items!"]
    match renderFigure cfg.plot_type d with
    | Except.error e => (Except.error e, fs, warn)
    | Except.ok fig =>
      let fs1 :=
        match cfg.output_file with
        | some p => fsWrite fs p (FileData.image fig)
        | none => fs
      (Except.ok (), fsWrite fs1 tmp (FileData.image fig), warn)

/-- Configuration of `TerminalPlot`: optional output path and plot-type
selector. -/
structure TerminalCfg where
  output_file : Option String
  plot_type : Option String
deriving DecidableEq

/-- `TerminalPlot.write_batch`: empty batch warns and returns; longer
batch warns and keeps the first item; renders the figure with the
text-plotting backend, shows it in the terminal (outside the file-system
model) and, if an output path is configured, exports a saved copy. -/
def TerminalPlot.write_batch (cfg : TerminalCfg) (data : List Plot) (fs : FS) : Except String Unit × FS × List String :=
  match data with
  | [] => (Except.ok (), fs, ["No data to plot!"])
  | d :: rest =>
    let warn : List String :=
      if rest.isEmpty then []
      else ["Can only plot the first of " ++ toString (rest.length + 1) ++ " data items!"]
    match renderFigure cfg.plot_type d with
    | Except.error e => (Except.error e, fs, warn)
    | Except.ok fig =>
      match cfg.output_file with
      | some p => (Except.ok (), fsWrite fs p (FileData.image fig), warn)
      | none => (Except.ok (), fs, warn)

/-- The rows of the spec's sample file `a.csv` under the default comma
separator: header `time,value` and data lines `1,10`, `2,20`, `3,30`. -/
def aCsvRows : List Row := [["time", "value"], ["1", "10"], ["2", "20"], ["3", "30"]]

/-- Reader configuration with X column 1 and Y column 2, no overrides. -/
def cfgXY12 : CsvReaderCfg :=
  { title := none, x_data := some "1", x_label := none, y_data := some "2", y_label := none, separator := none }

/-- The column state `CsvPlotReader.initialize` computes for `cfgXY12`. -/
def colsXY12 : CsvReaderCols := { y_col := 1, x_col := some 0, separator := "," }

/-- Reader configuration with only Y column 2, no overrides. -/
def cfgY2 : CsvReaderCfg :=
  { title := none, x_data := none, x_label := none, y_data := some "2", y_label := none, separator := none }

/-- The column state `CsvPlotReader.initialize` computes for `cfgY2`. -/
def colsY2 : CsvReaderCols := { y_col := 1, x_col := none, separator := "," }

/-- Claim C1: reading `a.csv` (header `time,value`, data rows `1,10`,
`2,20`, `3,30`) with X column 1 and Y column 2 should emit an XYPlot
with `x_data = ["1","2","3"]`, `y_data = ["10","20","30"]`.  The code
disagrees: the row loop of `CsvPlotReader.read` has no `continue` after
the header branch, so the header cells are appended to the data too, and
the actually emitted plot has `x_data = ["time","1","2","3"]` and
`y_data = ["value","10","20","30"]` (title and labels are as claimed). -/
theorem c1_reader_appends_header_to_data :
    CsvPlotReader.setup cfgXY12 = Except.ok colsXY12 ∧
    CsvPlotReader.readOne cfgXY12 colsXY12 "a.csv" aCsvRows =
      Except.ok (Plot.xy { title := some "a.csv", x_data := ["time", "1", "2", "3"],
                           x_label := some "time", y_data := ["value", "10", "20", "30"],
                           y_label := some "value", metadata := [("source", "a.csv")] }) ∧
    (["time", "1", "2", "3"] : List String) ≠ ["1", "2", "3"] :=
  ⟨rfl, rfl, by decide⟩

/-- Claim C2: for a well-formed CSV with `row_count` rows the emitted
data sequences should have length `row_count - 1`.  The code disagrees
on `a.csv` (`row_count = 4`): because the header row is also appended to
the data (missing `continue` in the row loop), both the XYPlot sequences
and the SequencePlot data have length 4, not 3. -/
theorem c2_data_length_is_row_count_not_row_count_minus_one :
    CsvPlotReader.readOne cfgXY12 colsXY12 "a.csv" aCsvRows =
      Except.ok (Plot.xy { title := some "a.csv", x_data := ["time", "1", "2", "3"],
                           x_label := some "time", y_data := ["value", "10", "20", "30"],
                           y_label := some "value", metadata := [("source", "a.csv")] }) ∧
    (["time", "1", "2", "3"] : List String).length = aCsvRows.length ∧
    (["value", "10", "30", "30"] : List String).length = aCsvRows.length ∧
    CsvPlotReader.readOne cfgY2 colsY2 "a.csv" aCsvRows =
      Except.ok (Plot.seq { title := some "a.csv", data := ["value", "10", "20", "30"],
                            label := some "value", metadata := [("source", "a.csv")] }) ∧
    (["value", "10", "20", "30"] : List String).length ≠ aCsvRows.length - 1 :=
  ⟨rfl, rfl, rfl, rfl, by decide⟩

/-- Reader configuration with X column 1, Y column 2 and axis label
overrides `foo` (x) and `bar` (y). -/
def cfgXYover : CsvReaderCfg :=
  { title := none, x_data := some "1", x_label := some "foo", y_data := some "2",
    y_label := some "bar", separator := none }

/-- Reader configuration with only Y column 2 and y label override
`bar`. -/
def cfgY2over : CsvReaderCfg :=
  { title := none, x_data := none, x_label := none, y_data := some "2",
    y_label := some "bar", separator := none }

/-- Claim C3: a configured x/y axis label override should become the
emitted plot's label.  The code disagrees: `CsvPlotReader.read` builds
the plot from the loop locals only and never consults the stored
`x_label`/`y_label` override fields (contradicting the CLI help "The
label to use for the x-axis, default is the column name"), so with
overrides `foo`/`bar` configured the emitted labels are still the header
cells `time`/`value`.  The no-override half of the claim (label equals
the header cell at the configured column) does hold. -/
theorem c3_label_overrides_are_ignored :
    CsvPlotReader.readOne cfgXYover colsXY12 "a.csv" aCsvRows =
      Except.ok (Plot.xy { title := some "a.csv", x_data := ["time", "1", "2", "3"],
                           x_label := some "time", y_data := ["value", "10", "20", "30"],
                           y_label := some "value", metadata := [("source", "a.csv")] }) ∧
    cfgXYover.x_label = some "foo" ∧ (some "time" : Option String) ≠ some "foo" ∧
    cfgXYover.y_label = some "bar" ∧ (some "value" : Option String) ≠ some "bar" ∧
    CsvPlotReader.readOne cfgY2over colsY2 "a.csv" aCsvRows =
      Except.ok (Plot.seq { title := some "a.csv", data := ["value", "10", "20", "30"],
                            label := some "value", metadata := [("source", "a.csv")] }) ∧
    cfgY2over.y_label = some "bar" ∧ (some "value" : Option String) ≠ some "bar" :=
  ⟨rfl, rfl, by decide, rfl, by decide, rfl, rfl, by decide⟩

/-- The XYPlot used for the round-trip counterexample of claim C4. -/
def rtPlot : XYPlotData :=
  { title := some "t", x_data := ["1"], x_label := some "time",
    y_data := ["10"], y_label := some "value", metadata := [] }

/-- Claim C4: writing an XYPlot with the CSV writer and re-reading the
file with X column 1 and Y column 2 should reproduce the original
`x_data`/`y_data`.  The code disagrees: the writer emits the header row
`time,value` followed by the data row `1,10`, and the reader — because
its row loop also appends the header row to the data — returns
`x_data = ["time","1"]` and `y_data = ["value","10"]` instead of `["1"]`
and `["10"]`. -/
theorem c4_csv_round_trip_fails :
    CsvPlotWriter.write_batch { output_file := "out.csv", separator := "," } [Plot.xy rtPlot] [] =
      (Except.ok (), [("out.csv", FileData.csv [["time", "value"], ["1", "10"]])], []) ∧
    CsvPlotReader.read cfgXY12 colsXY12 ["out.csv"] { _inputs := none }
        [("out.csv", FileData.csv [["time", "value"], ["1", "10"]])] =
      Except.ok (Plot.xy { title := some "out.csv", x_data := ["time", "1"],
                           x_label := some "time", y_data := ["value", "10"],
                           y_label := some "value", metadata := [("source", "out.csv")] },
                 { _inputs := some [] }) ∧
    (["time", "1"] : List String) ≠ rtPlot.x_data ∧
    (["value", "10"] : List String) ≠ rtPlot.y_data :=
  ⟨rfl, rfl, by decide, by decide⟩

/-- Reader configuration with only Y column 1. -/
def cfgY1 : CsvReaderCfg :=
  { title := none, x_data := none, x_label := none, y_data := some "1", y_label := none, separator := none }

/-- The column state `CsvPlotReader.initialize` computes for `cfgY1`. -/
def colsY1 : CsvReaderCols := { y_col := 0, x_col := none, separator := "," }

/-- Claim C5: a CSV with only a header row should yield a plot with
empty data sequences and no error.  The code half agrees: no error is
raised, but because the row loop also appends the header row to the data
(missing `continue`), the emitted sequences contain the header cells —
for the one-row file `value` (Y column 1) the SequencePlot data is
`["value"]`, and for the one-row file `time,value` (X column 1, Y
column 2) both XYPlot sequences have one element, not zero. -/
theorem c5_header_only_csv_yields_nonempty_data :
    CsvPlotReader.readOne cfgY1 colsY1 "v.csv" [["value"]] =
      Except.ok (Plot.seq { title := some "v.csv", data := ["value"],
                            label := some "value", metadata := [("source", "v.csv")] }) ∧
    (["value"] : List String) ≠ [] ∧
    CsvPlotReader.readOne cfgXY12 colsXY12 "h.csv" [["time", "value"]] =
      Except.ok (Plot.xy { title := some "h.csv", x_data := ["time"], x_label := some "time",
                           y_data := ["value"], y_label := some "value",
                           metadata := [("source", "h.csv")] }) ∧
    (["time"] : List String) ≠ [] :=
  ⟨rfl, by decide, rfl, by decide⟩

/-- Claim C6: every writer (CSV, graphical, sixel, terminal), given an
empty batch, logs a warning, performs no file write, and leaves the file
system — in particular any previously-existing file at the configured
output path — unchanged: the empty-batch check precedes the `open` /
`savefig` calls in all four `write_batch` methods. -/
theorem c6_empty_batch_warns_and_writes_nothing (ccfg : CsvWriterCfg) (gcfg : GraphicalCfg)
    (scfg : SixelCfg) (tcfg : TerminalCfg) (tmp : String) (fs : FS) :
    CsvPlotWriter.write_batch ccfg [] fs = (Except.ok (), fs, ["No data to save!"]) ∧
    GraphicalPlot.write_batch gcfg [] fs = (Except.ok (), fs, ["No data to plot!"]) ∧
    SixelPlot.write_batch scfg tmp [] fs = (Except.ok (), fs, ["No data to plot!"]) ∧
    TerminalPlot.write_batch tcfg [] fs = (Except.ok (), fs, ["No data to plot!"]) :=
  ⟨rfl, rfl, rfl, rfl⟩

/-- Claim C7: `CsvPlotReader.initialize` raises immediately when no Y
column is configured, and succeeds when a Y column (and, if present, an
X column) holding an integer index is configured.  Initialization
performs no I/O in either case: the embedded function takes no
file-system argument because the source touches no file or source list
(`locate_files` runs only on the first `read`). -/
theorem c7_init_requires_y_column (cfg : CsvReaderCfg) :
    (cfg.y_data = none →
      CsvPlotReader.setup cfg = Except.error "At least the column for the Y values must be specified!") ∧
    (∀ s n, cfg.y_data = some s → pythonInt s = Except.ok n →
      (cfg.x_data = none ∨ ∃ t m, cfg.x_data = some t ∧ pythonInt t = Except.ok m) →
      ∃ cols, CsvPlotReader.setup cfg = Except.ok cols) := by
  refine ⟨fun h => by simp [CsvPlotReader.setup, h], fun s n hs hn hx => ?_⟩
  rcases hx with hx | ⟨t, m, ht, hm⟩
  · refine ⟨{ y_col := n - 1, x_col := none, separator := cfg.separator.getD "," }, ?_⟩
    simp [CsvPlotReader.setup, hs, hn, hx]
  · refine ⟨{ y_col := n - 1, x_col := some (m - 1), separator := cfg.separator.getD "," }, ?_⟩
    simp [CsvPlotReader.setup, hs, hn, ht, hm]

/-- Witness for C7 at concrete configurations: no Y column configured
raises; Y column `2` with X column `1` succeeds. -/
theorem c7_init_requires_y_column_witness :
    CsvPlotReader.setup { title := none, x_data := none, x_label := none, y_data := none,
                          y_label := none, separator := none } =
      Except.error "At least the column for the Y values must be specified!" ∧
    ∃ cols, CsvPlotReader.setup cfgXY12 = Except.ok cols :=
  ⟨(c7_init_requires_y_column _).1 rfl,
   (c7_init_requires_y_column cfgXY12).2 "2" 2 rfl rfl (Or.inr ⟨"1", 1, rfl, rfl⟩)⟩

/-- Looking up a path right after writing it yields the written data. -/
theorem fsWrite_lookup (fs : FS) (p : String) (d : FileData) :
    List.lookup p (fsWrite fs p d) = some d := by
  induction fs with
  | nil => simp [fsWrite, List.lookup]
  | cons hd t ih =>
    obtain ⟨q, e⟩ := hd
    by_cases hq : q = p
    · simp [fsWrite, hq, List.lookup]
    · have hpq : (p == q) = false := beq_eq_false_iff_ne.mpr (fun h => hq h.symm)
      simp [fsWrite, hq, List.lookup, ih, hpq]

/-- Claim C9: `CsvPlotWriter.write_batch` on a non-empty batch whose
first item is an unrecognized `Plot` variant opens the configured output
path in write mode — creating the file or truncating an existing one to
empty — before raising the unhandled-type error, so the output file is
left truncated, not untouched. -/
theorem c9_csv_writer_truncates_before_unhandled_class_error (cfg : CsvWriterCfg)
    (cls : String) (rest : List Plot) (fs : FS) :
    CsvPlotWriter.write_batch cfg (Plot.other cls :: rest) fs =
      (Except.error ("Unhandled plot class: " ++ cls),
       fsWrite fs cfg.output_file (FileData.csv []),
       if rest.isEmpty then []
       else ["Can only save the first of " ++ toString (rest.length + 1) ++ " data items!"]) ∧
    List.lookup cfg.output_file (CsvPlotWriter.write_batch cfg (Plot.other cls :: rest) fs).2.1 =
      some (FileData.csv []) :=
  ⟨rfl, fsWrite_lookup fs cfg.output_file (FileData.csv [])⟩

/-- A successful pop-and-process step always leaves `_inputs` resolved
to a concrete list (the remaining files). -/
theorem readNext_ok_inputs (cfg : CsvReaderCfg) (cols : CsvReaderCols) (inputs : List String)
    (fs : FS) (p : Plot) (st' : CsvReaderRun)
    (h : CsvPlotReader.readNext cfg cols inputs fs = Except.ok (p, st')) :
    ∃ l, st'._inputs = some l := by
  cases inputs with
  | nil => simp [CsvPlotReader.readNext] at h
  | cons current rest =>
    cases hl : List.lookup current fs with
    | none => simp [CsvPlotReader.readNext, hl] at h
    | some fd =>
      cases fd with
      | image fig => simp [CsvPlotReader.readNext, hl] at h
      | csv rows =>
        cases hr : CsvPlotReader.readOne cfg cols current rows with
        | error e => simp [CsvPlotReader.readNext, hl, hr] at h
        | ok plot =>
          simp only [CsvPlotReader.readNext, hl, Except.ok.injEq, Prod.mk.injEq, hr] at h
          exact ⟨rest, by rw [← h.2]⟩

/-- Claim C10: calling `CsvPlotReader.has_finished` before the first
`read` call — while `_inputs` is still `None` — raises `TypeError`
(`len(None)`) instead of returning a boolean; after a successful `read`
has resolved the inputs, `has_finished` returns a boolean. -/
theorem c10_has_finished_raises_before_first_read (cfg : CsvReaderCfg) (cols : CsvReaderCols)
    (located : List String) (st : CsvReaderRun) (fs : FS) (p : Plot) (st' : CsvReaderRun)
    (h : CsvPlotReader.read cfg cols located st fs = Except.ok (p, st')) :
    CsvPlotReader.has_finished { _inputs := none } =
      Except.error "object of type NoneType has no len()" ∧
    ∃ b, CsvPlotReader.has_finished st' = Except.ok b := by
  refine ⟨rfl, ?_⟩
  have hres : ∃ l, st'._inputs = some l := by
    unfold CsvPlotReader.read at h
    cases hsi : st._inputs with
    | none =>
      simp only [hsi] at h
      by_cases hloc : located.isEmpty
      · simp [hloc] at h
      · simp only [hloc, if_false] at h
        exact readNext_ok_inputs _ _ _ _ _ _ h
    | some l =>
      simp only [hsi] at h
      exact readNext_ok_inputs _ _ _ _ _ _ h
  obtain ⟨l, hl⟩ := hres
  exact ⟨decide (l.length = 0), by simp [CsvPlotReader.has_finished, hl]⟩

/-- Witness for C10: a fresh reader state raises in `has_finished`, and
after successfully reading `a.csv` it returns a boolean. -/
theorem c10_has_finished_witness :
    CsvPlotReader.has_finished { _inputs := none } =
      Except.error "object of type NoneType has no len()" ∧
    ∃ b, CsvPlotReader.has_finished { _inputs := some ([] : List String) } = Except.ok b :=
  c10_has_finished_raises_before_first_read cfgXY12 colsXY12 ["a.csv"] { _inputs := none }
    [("a.csv", FileData.csv aCsvRows)]
    (Plot.xy { title := some "a.csv", x_data := ["time", "1", "2", "3"],
               x_label := some "time", y_data := ["value", "10", "20", "30"],
               y_label := some "value", metadata := [("source", "a.csv")] })
    { _inputs := some [] } rfl

/-- An unrecognized `Plot` variant always makes the shared rendering
block raise the unhandled-class error. -/
theorem renderFigure_other (pt : Option String) (cls : String) :
    renderFigure pt (Plot.other cls) = Except.error ("Unhandled plot class: " ++ cls) := rfl

/-- An unrecognized plot-type selector makes the shared rendering block
raise: the unhandled-type error on a recognized variant, or the
unhandled-class error (raised first) on an unrecognized variant. -/
theorem renderFigure_bad_type (pt : Option String) (d : Plot)
    (h1 : pt ≠ some PLOT_LINE) (h2 : pt ≠ some PLOT_SCATTER) :
    renderFigure pt d = Except.error ("Unhandled plot type: " ++ pyStrOpt pt) ∨
    ∃ cls, renderFigure pt d = Except.error ("Unhandled plot class: " ++ cls) := by
  cases d with
  | xy p => left; simp [renderFigure, h1, h2]
  | seq p => left; simp [renderFigure, h1, h2]
  | other cls => right; exact ⟨cls, rfl⟩

/-- A recognized selector on a recognized variant renders a figure. -/
theorem renderFigure_recognized (pt : Option String) (d : Plot)
    (hpt : pt = some PLOT_LINE ∨ pt = some PLOT_SCATTER)
    (hd : (∃ p, d = Plot.xy p) ∨ ∃ p, d = Plot.seq p) :
    ∃ fig, renderFigure pt d = Except.ok fig := by
  rcases hd with ⟨p, rfl⟩ | ⟨p, rfl⟩ <;> rcases hpt with rfl | rfl <;> exact ⟨_, rfl⟩

/-- The exception outcome of `GraphicalPlot.write_batch` on a non-empty
batch is that of the shared rendering block. -/
theorem graphical_fst (cfg : GraphicalCfg) (d : Plot) (rest : List Plot) (fs : FS) :
    (GraphicalPlot.write_batch cfg (d :: rest) fs).1 =
      Except.map (fun _ => ()) (renderFigure cfg.plot_type d) := by
  cases hr : renderFigure cfg.plot_type d with
  | error e => simp [GraphicalPlot.write_batch, hr, Except.map]
  | ok fig => cases ho : cfg.output_file <;> simp [GraphicalPlot.write_batch, hr, ho, Except.map]

/-- The exception outcome of `SixelPlot.write_batch` on a non-empty
batch is that of the shared rendering block. -/
theorem sixel_fst (cfg : SixelCfg) (tmp : String) (d : Plot) (rest : List Plot) (fs : FS) :
    (SixelPlot.write_batch cfg tmp (d :: rest) fs).1 =
      Except.map (fun _ => ()) (renderFigure cfg.plot_type d) := by
  cases hr : renderFigure cfg.plot_type d with
  | error e => simp [SixelPlot.write_batch, hr, Except.map]
  | ok fig => cases ho : cfg.output_file <;> simp [SixelPlot.write_batch, hr, ho, Except.map]

/-- The exception outcome of `TerminalPlot.write_batch` on a non-empty
batch is that of the shared rendering block. -/
theorem terminal_fst (cfg : TerminalCfg) (d : Plot) (rest : List Plot) (fs : FS) :
    (TerminalPlot.write_batch cfg (d :: rest) fs).1 =
      Except.map (fun _ => ()) (renderFigure cfg.plot_type d) := by
  cases hr : renderFigure cfg.plot_type d with
  | error e => simp [TerminalPlot.write_batch, hr, Except.map]
  | ok fig => cases ho : cfg.output_file <;> simp [TerminalPlot.write_batch, hr, ho, Except.map]

/-- Claim C8: each rendering writer (graphical, sixel, terminal), given
a non-empty batch, raises an unhandled-type error when the configured
plot-type selector is neither `line` nor `scatter` (the message names
the selector, or on an unrecognized variant the class, which is checked
first); raises the unhandled-class error when the first Plot is neither
an `XYPlot` nor a `SequencePlot`; and raises no error for a recognized
selector on a recognized variant. -/
theorem c8_rendering_writers_unhandled_type_errors (gcfg : GraphicalCfg) (scfg : SixelCfg)
    (tcfg : TerminalCfg) (tmp : String) (d : Plot) (rest : List Plot) (fs : FS) :
    ((gcfg.plot_type ≠ some PLOT_LINE ∧ gcfg.plot_type ≠ some PLOT_SCATTER) →
      ∃ e, (GraphicalPlot.write_batch gcfg (d :: rest) fs).1 = Except.error e) ∧
    ((scfg.plot_type ≠ some PLOT_LINE ∧ scfg.plot_type ≠ some PLOT_SCATTER) →
      ∃ e, (SixelPlot.write_batch scfg tmp (d :: rest) fs).1 = Except.error e) ∧
    ((tcfg.plot_type ≠ some PLOT_LINE ∧ tcfg.plot_type ≠ some PLOT_SCATTER) →
      ∃ e, (TerminalPlot.write_batch tcfg (d :: rest) fs).1 = Except.error e) ∧
    (∀ cls, d = Plot.other cls →
      (GraphicalPlot.write_batch gcfg (d :: rest) fs).1 =
        Except.error ("Unhandled plot class: " ++ cls) ∧
      (SixelPlot.write_batch scfg tmp (d :: rest) fs).1 =
        Except.error ("Unhandled plot class: " ++ cls) ∧
      (TerminalPlot.write_batch tcfg (d :: rest) fs).1 =
        Except.error ("Unhandled plot class: " ++ cls)) ∧
    (((∃ p, d = Plot.xy p) ∨ ∃ p, d = Plot.seq p) →
      ((gcfg.plot_type = some PLOT_LINE ∨ gcfg.plot_type = some PLOT_SCATTER) →
        (GraphicalPlot.write_batch gcfg (d :: rest) fs).1 = Except.ok ()) ∧
      ((scfg.plot_type = some PLOT_LINE ∨ scfg.plot_type = some PLOT_SCATTER) →
        (SixelPlot.write_batch scfg tmp (d :: rest) fs).1 = Except.ok ()) ∧
      ((tcfg.plot_type = some PLOT_LINE ∨ tcfg.plot_type = some PLOT_SCATTER) →
        (TerminalPlot.write_batch tcfg (d :: rest) fs).1 = Except.ok ())) := by
  refine ⟨?_, ?_, ?_, ?_, ?_⟩
  · rintro ⟨h1, h2⟩
    rcases renderFigure_bad_type gcfg.plot_type d h1 h2 with h | ⟨cls, h⟩
    · exact ⟨"Unhandled plot type: " ++ pyStrOpt gcfg.plot_type,
             by simp [graphical_fst, h, Except.map]⟩
    · exact ⟨"Unhandled plot class: " ++ cls, by simp [graphical_fst, h, Except.map]⟩
  · rintro ⟨h1, h2⟩
    rcases renderFigure_bad_type scfg.plot_type d h1 h2 with h | ⟨cls, h⟩
    · exact ⟨"Unhandled plot type: " ++ pyStrOpt scfg.plot_type,
             by simp [sixel_fst, h, Except.map]⟩
    · exact ⟨"Unhandled plot class: " ++ cls, by simp [sixel_fst, h, Except.map]⟩
  · rintro ⟨h1, h2⟩
    rcases renderFigure_bad_type tcfg.plot_type d h1 h2 with h | ⟨cls, h⟩
    · exact ⟨"Unhandled plot type: " ++ pyStrOpt tcfg.plot_type,
             by simp [terminal_fst, h, Except.map]⟩
    · exact ⟨"Unhandled plot class: " ++ cls, by simp [terminal_fst, h, Except.map]⟩
  · rintro cls rfl
    refine ⟨?_, ?_, ?_⟩
    · simp [graphical_fst, renderFigure_other, Except.map]
    · simp [sixel_fst, renderFigure_other, Except.map]
    · simp [terminal_fst, renderFigure_other, Except.map]
  · intro hd
    refine ⟨fun hpt => ?_, fun hpt => ?_, fun hpt => ?_⟩
    · obtain ⟨fig, hfig⟩ := renderFigure_recognized gcfg.plot_type d hpt hd
      simp [graphical_fst, hfig, Except.map]
    · obtain ⟨fig, hfig⟩ := renderFigure_recognized scfg.plot_type d hpt hd
      simp [sixel_fst, hfig, Except.map]
    · obtain ⟨fig, hfig⟩ := renderFigure_recognized tcfg.plot_type d hpt hd
      simp [terminal_fst, hfig, Except.map]

/-- A sample SequencePlot for the C8 witness. -/
def wSeq : SequencePlotData := { title := none, data := ["1"], label := none, metadata := [] }

/-- A sample XYPlot for the C8 witness. -/
def wXY : XYPlotData :=
  { title := none, x_data := ["1"], x_label := none, y_data := ["2"], y_label := none, metadata := [] }

/-- Witness for C8 at concrete inputs: selector `pie` raises on all
three writers, an unrecognized variant raises on all three, and `line`
on an `XYPlot` raises on none. -/
theorem c8_rendering_writers_witness :
    (∃ e, (GraphicalPlot.write_batch { output_file := none, plot_type := some "pie", block := false }
            [Plot.seq wSeq] []).1 = Except.error e) ∧
    (∃ e, (SixelPlot.write_batch { output_file := none, plot_type := some "pie" } "tmp.png"
            [Plot.seq wSeq] []).1 = Except.error e) ∧
    (∃ e, (TerminalPlot.write_batch { output_file := none, plot_type := some "pie" }
            [Plot.seq wSeq] []).1 = Except.error e) ∧
    (GraphicalPlot.write_batch { output_file := none, plot_type := some "line", block := false }
        [Plot.other "Foo"] []).1 = Except.error ("Unhandled plot class: " ++ "Foo") ∧
    (SixelPlot.write_batch { output_file := none, plot_type := some "line" } "tmp.png"
        [Plot.other "Foo"] []).1 = Except.error ("Unhandled plot class: " ++ "Foo") ∧
    (TerminalPlot.write_batch { output_file := none, plot_type := some "line" }
        [Plot.other "Foo"] []).1 = Except.error ("Unhandled plot class: " ++ "Foo") ∧
    (GraphicalPlot.write_batch { output_file := none, plot_type := some "line", block := false }
        [Plot.xy wXY] []).1 = Except.ok () ∧
    (SixelPlot.write_batch { output_file := none, plot_type := some "line" } "tmp.png"
        [Plot.xy wXY] []).1 = Except.ok () ∧
    (TerminalPlot.write_batch { output_file := none, plot_type := some "line" }
        [Plot.xy wXY] []).1 = Except.ok () := by
  have hbad := c8_rendering_writers_unhandled_type_errors
    { output_file := none, plot_type := some "pie", block := false }
    { output_file := none, plot_type := some "pie" }
    { output_file := none, plot_type := some "pie" } "tmp.png" (Plot.seq wSeq) [] []
  have hcls := c8_rendering_writers_unhandled_type_errors
    { output_file := none, plot_type := some "line", block := false }
    { output_file := none, plot_type := some "line" }
    { output_file := none, plot_type := some "line" } "tmp.png" (Plot.other "Foo") [] []
  have hok := c8_rendering_writers_unhandled_type_errors
    { output_file := none, plot_type := some "line", block := false }
    { output_file := none, plot_type := some "line" }
    { output_file := none, plot_type := some "line" } "tmp.png" (Plot.xy wXY) [] []
  obtain ⟨hc1, hc2, hc3⟩ := hcls.2.2.2.1 "Foo" rfl
  obtain ⟨ho1, ho2, ho3⟩ := hok.2.2.2.2 (Or.inl ⟨wXY, rfl⟩)
  exact ⟨hbad.1 (by simp [PLOT_LINE, PLOT_SCATTER]),
         hbad.2.1 (by simp [PLOT_LINE, PLOT_SCATTER]),
         hbad.2.2.1 (by simp [PLOT_LINE, PLOT_SCATTER]),
         hc1, hc2, hc3,
         ho1 (Or.inl (by simp [PLOT_LINE])),
         ho2 (Or.inl (by simp [PLOT_LINE])),
         ho3 (Or.inl (by simp [PLOT_LINE]))⟩
